import Mathlib

/-!
Verification development for the voice-ordering backend.

Shallow embedding of the backend's pure core logic:
  * `utils/helpers.py`      — phone normalization (`format_phone_number`)
  * `services/order_service.py` — order creation, pricing, status transitions
  * `services/menu_service.py`  — fuzzy price lookup (`get_menu_item_price`)
  * `routes/webhook.py`     — correlation cache and completed-call handling
  * `routes/orders.py`      — self-service request conversion

Python strings are modelled as `List Char`; monetary amounts as `ℚ`
(Python floats idealised as exact rationals, with `round(x, 2)` modelled
as round-half-up on rationals); the external store appears as explicit
data (menus as lists, the order table as a list of persisted records);
fallible code returns `Except`.
-/

namespace Backend

/-! ## Python string primitives -/

/-- Whitespace characters removed by Python's `str.strip()`. -/
def isPySpace (c : Char) : Bool :=
  c = ' ' || c = '\t' || c = '\n' || c = '\r' || c = '\x0b' || c = '\x0c'

/-- Python `str.strip()`: drop leading and trailing whitespace. -/
def pyStrip (s : List Char) : List Char :=
  ((s.dropWhile isPySpace).reverse.dropWhile isPySpace).reverse

/-- The chained `.replace(" ", "").replace("-", "").replace("(", "").replace(")", "")`
from `format_phone_number`: remove every space, dash and parenthesis. -/
def removePunct (s : List Char) : List Char :=
  s.filter (fun c => !(c = ' ' || c = '-' || c = '(' || c = ')'))

/-- Python `str.isdigit()` (restricted to ASCII digits): nonempty and all digits. -/
def allDigits (s : List Char) : Bool :=
  !s.isEmpty && s.all Char.isDigit

/-- Python `needle in hay` for strings. -/
def strContains (hay needle : List Char) : Bool :=
  match hay with
  | [] => needle.isEmpty
  | _ :: t => needle.isPrefixOf hay || strContains t needle

/-- The suffix of `s` after the first occurrence of `sep`
(`none` when `sep` does not occur). -/
def dropThroughFirst (sep : List Char) (s : List Char) : Option (List Char) :=
  match s with
  | [] => if sep.isEmpty then some [] else none
  | _ :: t =>
    if sep.isPrefixOf s then some (s.drop sep.length)
    else dropThroughFirst sep t

/-- The prefix of `s` before the first occurrence of `sep`
(all of `s` when `sep` does not occur). -/
def takeUntilSub (sep : List Char) (s : List Char) : List Char :=
  match s with
  | [] => []
  | c :: t =>
    if sep.isPrefixOf s then []
    else c :: takeUntilSub sep t

/-! ## Phone Identity Resolver — `utils/helpers.py`, `format_phone_number` -/

/-- Cleaning phase of `format_phone_number`: `.strip()` then remove
spaces, dashes and parentheses. -/
def cleanPhone (s : List Char) : List Char :=
  removePunct (pyStrip s)

/-- The two stripping steps applied when the cleaned string is not already
`+1`-prefixed: drop a leading `+`, then drop a leading domestic trunk `1`
when exactly 11 characters remain. -/
def domesticForm (p : List Char) : List Char :=
  let p1 := if ['+'].isPrefixOf p then p.drop 1 else p
  if ['1'].isPrefixOf p1 && p1.length = 11 then p1.drop 1 else p1

/-- `format_phone_number` from `utils/helpers.py`, clause for clause:
empty input returns empty; a cleaned string already starting `+1` is
returned as is; otherwise `+`/trunk-stripping, then the 10-digit and
11-digit direct cases, then the digits-only extraction cases, then the
all-digits fallback, and finally the cleaned string unchanged. -/
def format_phone_number (s : List Char) : List Char :=
  if s.isEmpty then []
  else
    let p0 := cleanPhone s
    if ['+', '1'].isPrefixOf p0 then p0
    else
      let p2 := domesticForm p0
      if p2.length = 10 && allDigits p2 then '+' :: '1' :: p2
      else if p2.length = 11 && ['1'].isPrefixOf p2 && allDigits p2 then '+' :: p2
      else
        let d := p2.filter Char.isDigit
        if d.length = 10 then '+' :: '1' :: d
        else if d.length = 11 && ['1'].isPrefixOf d then '+' :: '1' :: d.drop 1
        else if 10 ≤ d.length then '+' :: '1' :: d.drop (d.length - 10)
        else if allDigits p2 then '+' :: '1' :: p2
        else p2

/-! ### Theorems on phone normalization (claims C7 and C8) -/

/-- A digit character is not `'+'` (so a digit string never carries a `+` prefix). -/
theorem not_plus_of_isDigit {c : Char} (h : c.isDigit = true) : ('+' == c) = false := by
  apply beq_eq_false_iff_ne.mpr
  intro he
  rw [← he] at h
  exact absurd h (by decide)

/-- C7: for every phone string that represents a valid 10-digit North American
number in any of the supported punctuation styles — i.e. whose cleaned form
(spaces, dashes and parentheses stripped) is the 10 digits themselves, the 10
digits with a leading trunk `1`, or the 10 digits with a leading `+1` —
`format_phone_number` returns the canonical `+1` form followed by the 10 digits. -/
theorem C7_normalize_canonical (ds s : List Char)
    (hlen : ds.length = 10) (hdig : ds.all Char.isDigit = true)
    (hs : cleanPhone s = ds ∨ cleanPhone s = '1' :: ds ∨ cleanPhone s = '+' :: '1' :: ds) :
    format_phone_number s = '+' :: '1' :: ds := by
  have hne : s.isEmpty = false := by
    cases s with
    | cons c t => rfl
    | nil =>
      exfalso
      have h0 : cleanPhone ([] : List Char) = [] := rfl
      rcases hs with h | h | h
      · rw [h0] at h; rw [← h] at hlen; exact absurd hlen (by decide)
      · rw [h0] at h; exact List.noConfusion h
      · rw [h0] at h; exact List.noConfusion h
  obtain ⟨d, rest, hds⟩ : ∃ d rest, ds = d :: rest := by
    cases ds with
    | nil => exact absurd hlen (by decide)
    | cons d rest => exact ⟨d, rest, rfl⟩
  have hd : d.isDigit = true := by
    rw [hds] at hdig
    simp only [List.all_cons, Bool.and_eq_true] at hdig
    exact hdig.1
  have hdplus : ('+' == d) = false := not_plus_of_isDigit hd
  have hAll : allDigits ds = true := by
    rw [allDigits, hds]
    simp only [List.isEmpty_cons, Bool.not_false, Bool.true_and]
    rw [← hds]; exact hdig
  have hDom : domesticForm ds = ds := by
    rw [domesticForm]
    have h1 : (['+'].isPrefixOf ds) = false := by
      rw [hds]; simp [List.isPrefixOf, hdplus]
    rw [h1]
    simp only [Bool.false_eq_true, if_false]
    rw [hlen]
    simp
  have hDom1 : domesticForm ('1' :: ds) = ds := by
    rw [domesticForm]
    have h1 : (['+'].isPrefixOf ('1' :: ds)) = false := by simp [List.isPrefixOf]
    rw [h1]
    simp only [Bool.false_eq_true, if_false]
    have h2 : ('1' :: ds).length = 11 := by simp [hlen]
    rw [h2]
    simp [List.isPrefixOf]
  rcases hs with h | h | h
  · have c1 : (['+', '1'].isPrefixOf ds) = false := by
      rw [hds]; simp [List.isPrefixOf, hdplus]
    rw [format_phone_number]
    simp only [hne, Bool.false_eq_true, if_false, h, c1, hDom, hlen, hAll]
    simp
  · have c1 : (['+', '1'].isPrefixOf ('1' :: ds)) = false := by simp [List.isPrefixOf]
    rw [format_phone_number]
    simp only [hne, Bool.false_eq_true, if_false, h, c1, hDom1, hlen, hAll]
    simp
  · have c1 : (['+', '1'].isPrefixOf ('+' :: '1' :: ds)) = true := by simp [List.isPrefixOf]
    rw [format_phone_number]
    simp only [hne, Bool.false_eq_true, if_false, h, c1, if_true]

/-- C7 witness: `"(917) 555-0100"` normalizes to `"+19175550100"`. -/
theorem C7_normalize_canonical_witness :
    format_phone_number "(917) 555-0100".data = '+' :: '1' :: "9175550100".data :=
  C7_normalize_canonical "9175550100".data "(917) 555-0100".data
    (by decide) (by decide) (Or.inl (by decide))

/-- C8 counterexample: on the input `"abc"` — which has no digit-only
interpretation — `format_phone_number` returns the cleaned input `"abc"`
unchanged, NOT the claimed `"+1abc"` (`'+1'`-prefixed cleaned input). -/
theorem C8_counterexample :
    format_phone_number "abc".data = "abc".data ∧
      format_phone_number "abc".data ≠ '+' :: '1' :: "abc".data := by
  constructor
  · decide
  · decide

/-- C8 amended: for every nonempty input whose cleaned form is not already
`+1`-prefixed and whose remainder after the `+`/trunk-stripping steps contains
fewer than 10 digits and is not purely digits, `format_phone_number` does not
fail and returns that cleaned remainder unchanged — with no `'+1'` prefix added. -/
theorem C8_no_digits_cleaned (s : List Char)
    (hne : s.isEmpty = false)
    (h0 : (['+', '1'].isPrefixOf (cleanPhone s)) = false)
    (hlt : ((domesticForm (cleanPhone s)).filter Char.isDigit).length < 10)
    (hnd : allDigits (domesticForm (cleanPhone s)) = false) :
    format_phone_number s = domesticForm (cleanPhone s) := by
  rw [format_phone_number]
  simp only [hne, Bool.false_eq_true, if_false, h0]
  have e3 : (decide (((domesticForm (cleanPhone s)).filter Char.isDigit).length = 10)) = false :=
    decide_eq_false (by omega)
  have e4 : (decide (((domesticForm (cleanPhone s)).filter Char.isDigit).length = 11)) = false :=
    decide_eq_false (by omega)
  have e5 : (decide (10 ≤ ((domesticForm (cleanPhone s)).filter Char.isDigit).length)) = false :=
    decide_eq_false (by omega)
  simp only [hnd, e3, e4, e5, Bool.and_false, Bool.false_and, Bool.false_eq_true, if_false]
  rw [if_neg (by omega), if_neg (by omega)]

/-- C8 witness: the amended claim at the concrete input `"abc"`. -/
theorem C8_no_digits_cleaned_witness :
    (("abc".data : List Char).isEmpty = false) ∧
      format_phone_number "abc".data = domesticForm (cleanPhone "abc".data) :=
  ⟨by decide, C8_no_digits_cleaned "abc".data (by decide) (by decide) (by decide) (by decide)⟩

/-! ## Order Lifecycle Controller — `services/order_service.py` -/

/-- `TAX_RATE = 0.0725` from `order_service.py` line 17. -/
def TAX_RATE : ℚ := 725 / 10000

/-- Python `round(x, 2)` idealised on exact rationals as round-half-up
to two decimal places. -/
def round2 (x : ℚ) : ℚ := (⌊x * 100 + 1 / 2⌋ : ℚ) / 100

/-- Truthiness of an optional Python string: `None` and `""` are falsy. -/
def pyTruthy : Option String → Bool
  | none => false
  | some s => s ≠ ""

/-- `valid_statuses` from `update_order_status`. -/
def valid_statuses : List String :=
  ["pending", "preparing", "ready", "completed", "cancelled"]

/-- The slice of an `orders` row read and written by the lifecycle
operations (the other columns are never consulted by them). -/
structure OrderRec where
  status : String
  special_instructions : Option String
deriving DecidableEq, Repr

/-- Errors raised by the service layer: `ValueError` (mapped to HTTP 400 by
`routes/orders.py`) versus a plain `Exception` (mapped to HTTP 500). -/
inductive SvcError where
  | validationError (msg : String)
  | exception (msg : String)
deriving DecidableEq, Repr

/-- Outcome of a successful transition: the updated order row, the
status-history row appended (`status`, `changed_by`), and whether the
customer-SMS adapter was fired (fire-and-forget; its own success is
logged only and never propagated). -/
structure TransitionResult where
  order : OrderRec
  history : String × String
  smsFired : Bool
deriving DecidableEq, Repr

/-- `update_order_status(order_id, new_status, changed_by)`: rejects a target
status outside `valid_statuses` with a `ValueError`, loads the order (modelled
by the `Option OrderRec` argument, the result of `get_order_by_id`), writes
the new status, appends a history row, and fires the ready-for-pickup SMS
adapter exactly when `current_status != new_status and new_status == "ready"`.
The store write itself is abstracted into the returned record. -/
def update_order_status (order : Option OrderRec) (new_status : String)
    (changed_by : String) : Except SvcError TransitionResult :=
  if new_status ∉ valid_statuses then
    .error (.validationError ("Invalid status: " ++ new_status))
  else
    match order with
    | none => .error (.exception "Order not found")
    | some o =>
      .ok { order := { o with status := new_status },
            history := (new_status, changed_by),
            smsFired := o.status ≠ new_status && new_status = "ready" }

/-- `cancel_order(order_id, cancellation_reason, cancelled_by)`: rejects when
the current status is `completed` or already `cancelled` (`ValueError`),
otherwise sets the status to `cancelled`, appends the reason (when truthy) to
`special_instructions` as a `[CANCELLED: ...]` note, appends a history row,
and fires the cancellation SMS adapter. -/
def cancel_order (order : Option OrderRec) (cancellation_reason : Option String)
    (cancelled_by : String) : Except SvcError TransitionResult :=
  match order with
  | none => .error (.exception "Order not found")
  | some o =>
    if o.status = "completed" then
      .error (.validationError "Cannot cancel a completed order")
    else if o.status = "cancelled" then
      .error (.validationError "Order is already cancelled")
    else
      let newSI : Option String :=
        if pyTruthy cancellation_reason then
          let existing := o.special_instructions.getD ""
          let note := "[CANCELLED: " ++ cancellation_reason.getD "" ++ "]"
          if existing ≠ "" then some (existing ++ "\n" ++ note) else some note
        else o.special_instructions
      .ok { order := { status := "cancelled", special_instructions := newSI },
            history := ("cancelled", cancelled_by),
            smsFired := true }

/-! ### Theorems on status transitions (claims C1 and C4) -/

/-- C1 counterexample: a status-update request moving a `completed`
(terminal) order to `cancelled` is NOT rejected — `update_order_status`
accepts it and returns the updated order, because it validates only
membership of the target in `valid_statuses`, never reachability. -/
theorem C1_counterexample :
    update_order_status (some { status := "completed", special_instructions := none })
        "cancelled" "kds" =
      Except.ok { order := { status := "cancelled", special_instructions := none },
                  history := ("cancelled", "kds"), smsFired := false } := rfl

/-- C1 amended: `update_order_status` rejects (with a `ValueError`) exactly
the target statuses outside the valid enum, and accepts every valid target
from every current status — including from the terminal states `completed`
and `cancelled`, with no reachability check; only the dedicated
`cancel_order` operation rejects a cancellation when the order is already
`completed` or `cancelled`, with a `ValueError`. -/
theorem C1_terminal_transitions (o : OrderRec) (s cb : String) (r : Option String)
    (hs : s ∉ valid_statuses) (ht : o.status = "completed" ∨ o.status = "cancelled") :
    (∃ m, update_order_status (some o) s cb = .error (.validationError m)) ∧
    (∃ m, cancel_order (some o) r cb = .error (.validationError m)) ∧
    (∀ s', s' ∈ valid_statuses → ∃ res, update_order_status (some o) s' cb = .ok res) := by
  refine ⟨⟨"Invalid status: " ++ s, ?_⟩, ?_, ?_⟩
  · rw [update_order_status, if_pos hs]
  · rcases ht with h | h
    · exact ⟨"Cannot cancel a completed order", by simp only [cancel_order]; rw [if_pos h]⟩
    · refine ⟨"Order is already cancelled", ?_⟩
      simp only [cancel_order]
      rw [if_neg (by rw [h]; decide), if_pos h]
  · intro s' hs'
    rw [update_order_status, if_neg (not_not_intro hs')]
    exact ⟨_, rfl⟩

/-- C1 witness: the amended claim's validation-rejection conjunct at a
concrete completed order and the invalid target status `"bogus"`. -/
theorem C1_terminal_transitions_witness :
    ∃ m, update_order_status (some { status := "completed", special_instructions := none })
        "bogus" "kds" = .error (.validationError m) :=
  (C1_terminal_transitions { status := "completed", special_instructions := none }
    "bogus" "kds" none (by decide) (Or.inl rfl)).1

/-- C4 counterexample: a transition request whose target status is exactly
`ready` but whose order is already `ready` succeeds WITHOUT firing the SMS
adapter, refuting "the SMS adapter is fired if and only if the new status is
exactly 'ready'". -/
theorem C4_counterexample :
    update_order_status (some { status := "ready", special_instructions := none })
        "ready" "kds" =
      Except.ok { order := { status := "ready", special_instructions := none },
                  history := ("ready", "kds"), smsFired := false } := rfl

/-- C4 amended: on every successful status update the SMS adapter is fired
iff the new status is exactly `ready` AND it differs from the current status
(so no SMS on `preparing`, `completed`, or a no-op `ready` → `ready` update);
and every successful cancellation of a non-terminal order fires the
cancellation SMS adapter regardless of the prior status. -/
theorem C4_sms_exactly_on_ready (o : OrderRec) (s cb : String) (r : Option String)
    (res : TransitionResult)
    (hnt : o.status ≠ "completed" ∧ o.status ≠ "cancelled") :
    (update_order_status (some o) s cb = .ok res →
      (res.smsFired = true ↔ s = "ready" ∧ o.status ≠ s)) ∧
    (∃ res', cancel_order (some o) r cb = .ok res' ∧ res'.smsFired = true) := by
  constructor
  · intro h
    rw [update_order_status] at h
    by_cases hv : s ∉ valid_statuses
    · rw [if_pos hv] at h
      exact absurd h (by simp)
    · rw [if_neg hv] at h
      obtain rfl : _ = res := Except.ok.inj h
      simp only [Bool.and_eq_true, decide_eq_true_eq]
      exact and_comm
  · simp only [cancel_order]
    rw [if_neg hnt.1, if_neg hnt.2]
    exact ⟨_, rfl, rfl⟩

/-- C4 witness: the cancellation conjunct at a concrete `pending` order. -/
theorem C4_sms_exactly_on_ready_witness :
    ∃ res', cancel_order (some { status := "pending", special_instructions := none })
        none "kds" = .ok res' ∧ res'.smsFired = true :=
  (C4_sms_exactly_on_ready { status := "pending", special_instructions := none }
    "ready" "kds" none
    { order := { status := "ready", special_instructions := none },
      history := ("ready", "kds"), smsFired := true }
    ⟨by decide, by decide⟩).2

/-! ## Menu data and Pricing Engine — `services/menu_service.py`,
`services/order_service.py` -/

/-- A `modifier_options` row: option name and price adjustment. -/
structure ModifierOption where
  name : String
  price_adjustment : ℚ
deriving DecidableEq, Repr

/-- A `menu_modifiers` row with its options attached (as `get_menu_item`
returns it): `type` is `"single"` or `"multiple"`. -/
structure Modifier where
  name : String
  type : String
  options : List ModifierOption
deriving DecidableEq, Repr

/-- A `menu_items` row with its modifiers attached. `price` is nullable in
the store (`get_menu_item_price` skips null-priced matches; the
self-service path defaults it to 0 via `.get("price", 0)`). -/
structure MenuItem where
  id : String
  restaurant_id : String
  name : String
  price : Option ℚ
  is_available : Bool
  modifiers : List Modifier
deriving DecidableEq, Repr

/-- `get_menu_item(item_id)`: fetch a menu item by id (the store is the
`menu` list). -/
def get_menu_item (menu : List MenuItem) (item_id : String) : Option MenuItem :=
  menu.find? (fun m => m.id == item_id)

/-- `.strip().lower()` applied to a name before fuzzy matching. -/
def lowerStrip (s : String) : List Char :=
  (pyStrip s.data).map Char.toLower

/-- `get_menu_item_price(restaurant_id, item_name)` from
`services/menu_service.py`: available items of the restaurant only; exact
case-insensitive match first, then substring match in either direction;
the first match with a non-null price wins; otherwise `None`. -/
def get_menu_item_price (menu : List MenuItem) (restaurant_id : String)
    (item_name : String) : Option ℚ :=
  if (pyStrip item_name.data).isEmpty then none
  else
    let items := menu.filter (fun m => m.restaurant_id == restaurant_id && m.is_available)
    if items.isEmpty then none
    else
      let search := lowerStrip item_name
      match items.find? (fun m => lowerStrip m.name == search && m.price.isSome) with
      | some m => m.price
      | none =>
        match items.find? (fun m =>
            (strContains (lowerStrip m.name) search
              || strContains search (lowerStrip m.name)) && m.price.isSome) with
        | some m => m.price
        | none => none

/-- A value of the loosely-typed `modifier_selections` map: a JSON string
(radio selection) or a JSON list (checkbox selections). -/
inductive SelValue where
  | single (s : String)
  | multi (ss : List String)
deriving DecidableEq, Repr

/-- Python truthiness of a selection value (`if not selected: continue`). -/
def selTruthy : SelValue → Bool
  | .single s => s ≠ ""
  | .multi ss => !ss.isEmpty

/-- `modifier_selections.get(modifier_name)`. -/
def lookupSelection (sels : List (String × SelValue)) (name : String) : Option SelValue :=
  (sels.find? (fun p => p.1 == name)).map (fun p => p.2)

/-- The inner option scan of `calculate_modifier_price_adjustment`: the first
option whose name equals the selected name contributes its
`price_adjustment`; no match contributes nothing. -/
def optionAdjustment (options : List ModifierOption) (selName : String) : ℚ :=
  match options.find? (fun o => o.name == selName) with
  | some o => o.price_adjustment
  | none => 0

/-- `calculate_modifier_price_adjustment(menu_item_id, modifier_selections)`:
sum over the item's declared modifiers of the selected options' adjustments;
a missing/falsy selection, an unknown item, or a type mismatch between the
modifier's cardinality and the selection's shape contributes 0. -/
def calculate_modifier_price_adjustment (menu : List MenuItem) (menu_item_id : String)
    (modifier_selections : List (String × SelValue)) : ℚ :=
  match get_menu_item menu menu_item_id with
  | none => 0
  | some item =>
    (item.modifiers.map (fun m =>
      match lookupSelection modifier_selections m.name with
      | none => 0
      | some sel =>
        if !selTruthy sel then 0
        else
          match m.type, sel with
          | "single", .single s => optionAdjustment m.options s
          | "multiple", .multi ss => (ss.map (optionAdjustment m.options)).sum
          | _, _ => 0)).sum

/-! ## Order creation — `services/order_service.py` and `routes/orders.py` -/

/-- One item dict built by `routes/orders.py` for
`create_self_service_order` (lines 138-145): exactly these four fields,
nothing else. -/
structure SvcItem where
  menu_item_id : String
  quantity : ℤ
  modifier_selections : List (String × SelValue)
  special_instructions : Option String
deriving DecidableEq, Repr

/-- An `order_items` row persisted for a self-service order: `price` is the
server-computed unit price after modifiers. -/
structure OrderItemOut where
  item_name : String
  quantity : ℤ
  price : ℚ
  modifier_selections : List (String × SelValue)
  special_instructions : Option String
deriving DecidableEq, Repr

/-- The per-item loop of `create_self_service_order` (lines 198-234):
validates each item, computes `base_price + modifier_adjustment` as the unit
price, and accumulates `subtotal += unit_price * quantity` alongside the
order-item rows. -/
def priceSelfServiceItems (menu : List MenuItem) :
    List SvcItem → Except SvcError (ℚ × List OrderItemOut)
  | [] => .ok (0, [])
  | it :: rest =>
    if it.menu_item_id = "" then
      .error (.validationError "menu_item_id is required for each item")
    else
      match get_menu_item menu it.menu_item_id with
      | none => .error (.validationError ("Menu item " ++ it.menu_item_id ++ " not found"))
      | some mi =>
        if !mi.is_available then
          .error (.validationError ("Menu item '" ++ mi.name ++ "' is not available"))
        else
          let base_price := mi.price.getD 0
          let adj := calculate_modifier_price_adjustment menu it.menu_item_id it.modifier_selections
          let item_unit_price := base_price + adj
          match priceSelfServiceItems menu rest with
          | .error e => .error e
          | .ok (s, outs) =>
            .ok (item_unit_price * (it.quantity : ℚ) + s,
                 { item_name := mi.name, quantity := it.quantity,
                   price := item_unit_price,
                   modifier_selections := it.modifier_selections,
                   special_instructions := it.special_instructions } :: outs)

/-- The `order_data` dict handed to `create_self_service_order` by the
route (lines 136-152 of `routes/orders.py`). -/
structure SvcOrderData where
  restaurant_id : String
  items : List SvcItem
  customer_phone : String
  customer_name : Option String
  customer_session_id : Option String
  special_instructions : Option String
  estimated_ready_time : Option String
deriving DecidableEq, Repr

/-- The persisted `orders` row of a self-service order (order number and
timestamps, which are clock/uuid-derived, are abstracted away). -/
structure SelfServiceOrder where
  restaurant_id : String
  customer_phone : List Char
  customer_name : Option String
  status : String
  total_amount : ℚ
  order_source : String
  special_instructions : Option String
  items : List OrderItemOut
deriving DecidableEq, Repr

/-- `create_self_service_order(order_data, restaurant_id)`: validates the
request, prices every line server-side, computes
`tax_amount = subtotal * TAX_RATE` and persists
`total_amount = round(subtotal + tax_amount, 2)` with the priced item rows.
Print/SMS side effects are fire-and-forget and abstracted away. -/
def create_self_service_order (order_data : SvcOrderData) (restaurant_id : String)
    (menu : List MenuItem) : Except SvcError SelfServiceOrder :=
  if order_data.items.isEmpty then
    .error (.validationError "Order must have at least one item")
  else if order_data.customer_phone = "" then
    .error (.validationError "Customer phone is required")
  else
    match priceSelfServiceItems menu order_data.items with
    | .error e => .error e
    | .ok (subtotal, order_items_data) =>
      let tax_amount := subtotal * TAX_RATE
      let total_amount := subtotal + tax_amount
      .ok { restaurant_id := restaurant_id,
            customer_phone := format_phone_number order_data.customer_phone.data,
            customer_name := order_data.customer_name,
            status := "pending",
            total_amount := round2 total_amount,
            order_source := "self_service",
            special_instructions := order_data.special_instructions,
            items := order_items_data }

/-- What a self-service client may post for one item. `client_price` stands
for any price field a client includes in the JSON body: the pydantic model
`SelfServiceOrderItem` (`routes/orders.py` lines 27-31) declares only the
other four fields, so such a field is ignored at the boundary. -/
structure WireItem where
  menu_item_id : String
  quantity : ℤ
  modifier_selections : List (String × SelValue)
  special_instructions : Option String
  client_price : Option ℚ
deriving DecidableEq, Repr

/-- A self-service request body (`SelfServiceOrderRequest`). -/
structure WireRequest where
  restaurant_id : String
  items : List WireItem
  customer_phone : String
  customer_name : Option String
  customer_session_id : Option String
  special_instructions : Option String
  estimated_ready_time : Option String
deriving DecidableEq, Repr

/-- The item-dict construction of `routes/orders.py` lines 138-145: only
`menu_item_id`, `quantity`, `modifier_selections` and
`special_instructions` are copied — no price field. -/
def toSvcItem (w : WireItem) : SvcItem :=
  { menu_item_id := w.menu_item_id, quantity := w.quantity,
    modifier_selections := w.modifier_selections,
    special_instructions := w.special_instructions }

/-- The `order_data` dict construction of `routes/orders.py` lines 136-152. -/
def buildOrderData (req : WireRequest) : SvcOrderData :=
  { restaurant_id := req.restaurant_id,
    items := req.items.map toSvcItem,
    customer_phone := req.customer_phone,
    customer_name := req.customer_name,
    customer_session_id := req.customer_session_id,
    special_instructions := req.special_instructions,
    estimated_ready_time := req.estimated_ready_time }

/-- One parsed item of the LLM parser's JSON (`parser_service.py`; the
parser's schema carries no per-item price, so `price` arrives as `None`;
`size`/`pieces`/`variant` descriptors are elided as they never affect the
verified operations). -/
structure ParsedItem where
  item_name : String
  quantity : ℤ
  price : Option ℚ
  special_instructions : Option String
deriving DecidableEq, Repr

/-- The parsed order handed to `create_order` by the completed-call
handler. -/
structure ParsedOrder where
  customer_name : Option String
  customer_phone : String
  total_amount : Option ℚ
  estimated_ready_time : Option String
  special_instructions : Option String
  items : List ParsedItem
deriving DecidableEq, Repr

/-- The persisted `orders` row of a voice order (`create_order` lines
42-52; order number and timestamps abstracted away). -/
structure VoiceOrderRow where
  restaurant_id : String
  customer_phone : List Char
  customer_name : Option String
  status : String
  total_amount : Option ℚ
  estimated_ready_time : Option String
  special_instructions : Option String
deriving DecidableEq, Repr

/-- An `order_items` row of a voice order. -/
structure VoiceItemRow where
  item_name : String
  quantity : ℤ
  price : Option ℚ
  special_instructions : Option String
deriving DecidableEq, Repr

/-- `create_order_items(order_id, items, restaurant_id)`: for each item,
a missing price is looked up fuzzily in the restaurant's menu; a failed
lookup leaves the price null and logs a warning (a data-quality event,
not a failure). -/
def create_order_items (menu : List MenuItem) (items : List ParsedItem)
    (restaurant_id : String) : List VoiceItemRow :=
  items.map (fun item =>
    let price :=
      match item.price with
      | some p => some p
      | none =>
        if restaurant_id ≠ "" ∧ item.item_name ≠ "" then
          get_menu_item_price menu restaurant_id item.item_name
        else none
    { item_name := item.item_name, quantity := item.quantity, price := price,
      special_instructions := item.special_instructions })

/-- `create_order(order_data, restaurant_id)` (voice path): persists the
order row — whose `total_amount` is `order_data.get("total_amount")`,
taken verbatim from the parsed transcript — then the item rows with
fuzzily resolved prices. Print/SMS side effects are fire-and-forget and
abstracted away. -/
def create_order (order_data : ParsedOrder) (restaurant_id : String)
    (menu : List MenuItem) : VoiceOrderRow × List VoiceItemRow :=
  let order_record : VoiceOrderRow :=
    { restaurant_id := restaurant_id,
      customer_phone := format_phone_number order_data.customer_phone.data,
      customer_name := order_data.customer_name,
      status := "pending",
      total_amount := order_data.total_amount,
      estimated_ready_time := order_data.estimated_ready_time,
      special_instructions := order_data.special_instructions }
  let item_rows :=
    if order_data.items.isEmpty then []
    else create_order_items menu order_data.items restaurant_id
  (order_record, item_rows)

/-- The totals computation inlined in `create_self_service_order`
(lines 194-252), as the triple of its three locals: `subtotal` accumulated
as Σ unit·qty, the unrounded `tax_amount = subtotal * TAX_RATE`, and the
persisted `total_amount = round(subtotal + tax_amount, 2)`. -/
def computeOrderTotals (lineItems : List (ℚ × ℤ)) : ℚ × ℚ × ℚ :=
  let subtotal := (lineItems.map (fun pq => pq.1 * (pq.2 : ℚ))).sum
  let tax_amount := subtotal * TAX_RATE
  let total_amount := subtotal + tax_amount
  (subtotal, tax_amount, round2 total_amount)

/-- Sum of unit price times quantity over persisted self-service item rows. -/
def lineSubtotal (rows : List OrderItemOut) : ℚ :=
  (rows.map (fun r => r.price * (r.quantity : ℚ))).sum

/-! ### Theorems on order totals and pricing (claims C2, C5 and C6) -/



/-- The subtotal accumulated by the self-service pricing loop equals the sum
of unit price times quantity over the priced rows it emits. -/
theorem priceItems_subtotal (menu : List MenuItem) :
    ∀ (l : List SvcItem) (s : ℚ) (outs : List OrderItemOut),
      priceSelfServiceItems menu l = .ok (s, outs) → s = lineSubtotal outs := by
  intro l
  induction l with
  | nil =>
    intro s outs h
    rw [priceSelfServiceItems] at h
    have h' := Except.ok.inj h
    rw [Prod.mk.injEq] at h'
    obtain ⟨rfl, rfl⟩ := h'
    simp [lineSubtotal]
  | cons it rest ih =>
    intro s outs h
    rw [priceSelfServiceItems] at h
    split at h
    · exact Except.noConfusion h
    split at h
    · exact Except.noConfusion h
    split at h
    · exact Except.noConfusion h
    split at h
    · exact Except.noConfusion h
    rename_i s' outs' hp
    have h' := Except.ok.inj h
    rw [Prod.mk.injEq] at h'
    obtain ⟨rfl, rfl⟩ := h'
    rw [lineSubtotal, List.map_cons, List.sum_cons, ← lineSubtotal, ← ih s' outs' hp]

/-- C2 amended: on the self-service path the persisted `total_amount` is
computed at creation time from the server-resolved line items —
`round2(Σ(unit price × quantity) · (1 + TAX_RATE))` over the persisted rows;
on the voice path, however, the persisted `total_amount` is taken verbatim
from the parsed transcript (`order_data.get("total_amount")`) and is NOT
recomputed from the resolved item prices. -/
theorem C2_totals_by_path (req : SvcOrderData) (rid : String) (menu : List MenuItem)
    (res : SelfServiceOrder)
    (h : create_self_service_order req rid menu = .ok res) :
    res.total_amount = round2 (lineSubtotal res.items * (1 + TAX_RATE)) ∧
    ∀ (parsed : ParsedOrder) (rid' : String) (menu' : List MenuItem),
      (create_order parsed rid' menu').1.total_amount = parsed.total_amount := by
  constructor
  · rw [create_self_service_order] at h
    split at h
    · exact Except.noConfusion h
    split at h
    · exact Except.noConfusion h
    split at h
    · exact Except.noConfusion h
    rename_i subtotal rows hp
    have hsub := priceItems_subtotal menu req.items subtotal rows hp
    obtain rfl := Except.ok.inj h
    show round2 (subtotal + subtotal * TAX_RATE) = round2 (lineSubtotal rows * (1 + TAX_RATE))
    rw [← hsub]
    congr 1
    ring
  · intro parsed rid' menu'
    rfl




/-- Evaluation rule for `round2` from integer bounds on `x * 100 + 1/2`. -/
theorem round2_eq_of_bounds (x : ℚ) (K : ℤ) (h1 : (K : ℚ) ≤ x * 100 + 1 / 2)
    (h2 : x * 100 + 1 / 2 < K + 1) : round2 x = (K : ℚ) / 100 := by
  rw [round2, Int.floor_eq_iff.mpr ⟨h1, h2⟩]

/-- A one-item menu (the spec's "Spring Rolls" at $5.99) used as concrete
store state. -/
def menuCE : List MenuItem :=
  [{ id := "m1", restaurant_id := "r1", name := "Spring Rolls",
     price := some (599/100), is_available := true, modifiers := [] }]

/-- A parsed voice order whose transcript-extracted total (99) disagrees with
the line items' price × quantity plus tax. -/
def parsedCE : ParsedOrder :=
  { customer_name := none, customer_phone := "5551234567", total_amount := some 99,
    estimated_ready_time := none, special_instructions := none,
    items := [{ item_name := "Spring Rolls", quantity := 2, price := none,
                special_instructions := none }] }

/-- C2 counterexample: a voice order persists `total_amount = 99` taken from
the parser even though its single line item resolves to price 5.99 × 2, whose
taxed total is `round2(5.99·2·1.0725) = 12.85 ≠ 99`: the voice path's total
is not the sum of line items plus tax. -/
theorem C2_counterexample :
    (create_order parsedCE "r1" menuCE).1.total_amount = some 99 ∧
    (create_order parsedCE "r1" menuCE).2 =
      [{ item_name := "Spring Rolls", quantity := 2, price := some (599/100),
         special_instructions := none }] ∧
    (99 : ℚ) ≠ round2 ((599/100 * 2) * (1 + TAX_RATE)) := by
  refine ⟨rfl, rfl, ?_⟩
  have harg : ((599 : ℚ)/100 * 2) * (1 + TAX_RATE) = 1284855/100000 := by
    norm_num [TAX_RATE]
  rw [harg, round2_eq_of_bounds (1284855/100000) 1285 (by norm_num) (by norm_num)]
  norm_num

/-- A concrete valid self-service request for the witness. -/
def dataW : SvcOrderData :=
  { restaurant_id := "r1",
    items := [{ menu_item_id := "m1", quantity := 2, modifier_selections := [],
                special_instructions := none }],
    customer_phone := "5551234567", customer_name := none, customer_session_id := none,
    special_instructions := none, estimated_ready_time := none }

/-- The order persisted for `dataW`: unit price 5.99, subtotal 11.98,
total `round2(11.98 · 1.0725) = 12.85`. -/
def resW : SelfServiceOrder :=
  { restaurant_id := "r1", customer_phone := "+15551234567".data, customer_name := none,
    status := "pending", total_amount := 1285/100, order_source := "self_service",
    special_instructions := none,
    items := [{ item_name := "Spring Rolls", quantity := 2, price := 599/100,
                modifier_selections := [], special_instructions := none }] }

/-- C2 witness: the amended claim at the concrete request `dataW`. -/
theorem C2_totals_by_path_witness :
    (create_self_service_order dataW "r1" menuCE = Except.ok resW) ∧
      resW.total_amount = round2 (lineSubtotal resW.items * (1 + TAX_RATE)) := by
  have hp : priceSelfServiceItems menuCE dataW.items
      = Except.ok ((599 : ℚ)/50, resW.items) := by
    norm_num [priceSelfServiceItems, dataW, menuCE, resW, get_menu_item,
      calculate_modifier_price_adjustment, List.find?]
    intro hc
    exact absurd hc (by decide)
  have hcreate : create_self_service_order dataW "r1" menuCE = Except.ok resW := by
    rw [create_self_service_order, if_neg (by decide), if_neg (by decide)]
    simp only [hp]
    have ht : (599 : ℚ)/50 + (599 : ℚ)/50 * TAX_RATE = 1284855/100000 := by
      norm_num [TAX_RATE]
    rw [ht, round2_eq_of_bounds (1284855/100000) 1285 (by norm_num) (by norm_num)]
    rfl
  exact ⟨hcreate, (C2_totals_by_path dataW "r1" menuCE resW hcreate).1⟩

/-- C5: the unit price persisted for each self-service line item is computed
server-side (stored base price + selected modifier adjustments) and is
independent of any client-supplied price: two requests identical except for
the `client_price` values their items carry produce identical persisted
orders — same item prices and same total. -/
theorem C5_server_side_pricing (menu : List MenuItem) (r1 r2 : WireRequest)
    (hitems : List.Forall₂ (fun a b =>
        a.menu_item_id = b.menu_item_id ∧ a.quantity = b.quantity ∧
        a.modifier_selections = b.modifier_selections ∧
        a.special_instructions = b.special_instructions) r1.items r2.items)
    (hrid : r1.restaurant_id = r2.restaurant_id)
    (hphone : r1.customer_phone = r2.customer_phone)
    (hname : r1.customer_name = r2.customer_name)
    (hsess : r1.customer_session_id = r2.customer_session_id)
    (hsi : r1.special_instructions = r2.special_instructions)
    (hert : r1.estimated_ready_time = r2.estimated_ready_time) :
    create_self_service_order (buildOrderData r1) r1.restaurant_id menu =
      create_self_service_order (buildOrderData r2) r2.restaurant_id menu := by
  have hmapgen : ∀ (l1 l2 : List WireItem), List.Forall₂ (fun a b =>
        a.menu_item_id = b.menu_item_id ∧ a.quantity = b.quantity ∧
        a.modifier_selections = b.modifier_selections ∧
        a.special_instructions = b.special_instructions) l1 l2 →
      l1.map toSvcItem = l2.map toSvcItem := by
    intro l1 l2 hf
    induction hf with
    | nil => rfl
    | cons hab htl ih =>
      simp only [List.map_cons, ih]
      obtain ⟨h1, h2, h3, h4⟩ := hab
      simp [toSvcItem, h1, h2, h3, h4]
  have hdata : buildOrderData r1 = buildOrderData r2 := by
    simp [buildOrderData, hmapgen r1.items r2.items hitems,
      hrid, hphone, hname, hsess, hsi, hert]
  rw [hdata, hrid]

/-- A request whose item carries a client-supplied price of $0.01. -/
def reqW1 : WireRequest :=
  { restaurant_id := "r1",
    items := [{ menu_item_id := "m1", quantity := 2, modifier_selections := [],
                special_instructions := none, client_price := some (1/100) }],
    customer_phone := "5551234567", customer_name := none, customer_session_id := none,
    special_instructions := none, estimated_ready_time := none }

/-- The same request without any client-supplied price. -/
def reqW2 : WireRequest :=
  { reqW1 with
    items := [{ menu_item_id := "m1", quantity := 2, modifier_selections := [],
                special_instructions := none, client_price := none }] }

/-- C5 witness: the two concrete requests differing only in `client_price`
produce identical orders. -/
theorem C5_server_side_pricing_witness :
    create_self_service_order (buildOrderData reqW1) reqW1.restaurant_id menuCE =
      create_self_service_order (buildOrderData reqW2) reqW2.restaurant_id menuCE :=
  C5_server_side_pricing menuCE reqW1 reqW2
    (List.Forall₂.cons ⟨rfl, rfl, rfl, rfl⟩ List.Forall₂.nil)
    rfl rfl rfl rfl rfl rfl

/-- A sum of price × quantity over 2-decimal prices and integer quantities
is an integer multiple of 1/100. -/
theorem subtotal_int_div_100 (l : List (ℚ × ℤ))
    (h : ∀ pq ∈ l, ∃ k : ℤ, pq.1 = (k : ℚ) / 100) :
    ∃ K : ℤ, (l.map (fun pq => pq.1 * (pq.2 : ℚ))).sum = (K : ℚ) / 100 := by
  induction l with
  | nil => exact ⟨0, by simp⟩
  | cons a t ih =>
    obtain ⟨k, hk⟩ := h a (List.mem_cons_self a t)
    obtain ⟨K, hK⟩ := ih (fun pq hpq => h pq (List.mem_cons_of_mem _ hpq))
    refine ⟨k * a.2 + K, ?_⟩
    rw [List.map_cons, List.sum_cons, hk, hK]
    push_cast
    ring

/-- `round2` commutes with adding an integer multiple of 1/100. -/
theorem round2_intDiv_add (K : ℤ) (t : ℚ) :
    round2 ((K : ℚ) / 100 + t) = (K : ℚ) / 100 + round2 t := by
  rw [round2, round2]
  have h1 : ((K : ℚ) / 100 + t) * 100 + 1 / 2 = (K : ℚ) + (t * 100 + 1 / 2) := by ring
  rw [h1, Int.floor_int_add]
  push_cast
  ring

/-- C6 amended: the totals computation is invariant under reordering of the
line items, and — when every unit price is a 2-decimal amount — the yielded
total equals `subtotal + round2(subtotal · TAX_RATE)` to the cent; the tax
component itself, however, is the UNROUNDED `subtotal · TAX_RATE` (rounding
is applied only once, at the final total). -/
theorem C6_totals_reorder (l1 l2 : List (ℚ × ℤ)) (hperm : l1.Perm l2)
    (h2dec : ∀ pq ∈ l1, ∃ k : ℤ, pq.1 = (k : ℚ) / 100) :
    computeOrderTotals l1 = computeOrderTotals l2 ∧
    (computeOrderTotals l1).2.2 =
      (computeOrderTotals l1).1 + round2 ((computeOrderTotals l1).1 * TAX_RATE) := by
  have hsum : (l1.map (fun pq => pq.1 * (pq.2 : ℚ))).sum
      = (l2.map (fun pq => pq.1 * (pq.2 : ℚ))).sum := (hperm.map _).sum_eq
  constructor
  · rw [computeOrderTotals, computeOrderTotals, hsum]
  · obtain ⟨K, hK⟩ := subtotal_int_div_100 l1 h2dec
    show round2 ((l1.map (fun pq => pq.1 * (pq.2 : ℚ))).sum
        + (l1.map (fun pq => pq.1 * (pq.2 : ℚ))).sum * TAX_RATE)
      = (l1.map (fun pq => pq.1 * (pq.2 : ℚ))).sum
        + round2 ((l1.map (fun pq => pq.1 * (pq.2 : ℚ))).sum * TAX_RATE)
    rw [hK, round2_intDiv_add]

/-- C6 counterexample: for a single 5.99 line the computed tax component is
the unrounded `5.99 · 0.0725 = 0.434275`, which differs from the claimed
`round(subtotal · 0.0725, 2) = 0.43`. -/
theorem C6_counterexample :
    (computeOrderTotals [((599 : ℚ)/100, (1 : ℤ))]).2.1 = (599 : ℚ)/100 * TAX_RATE ∧
    (computeOrderTotals [((599 : ℚ)/100, (1 : ℤ))]).2.1 ≠
      round2 ((computeOrderTotals [((599 : ℚ)/100, (1 : ℤ))]).1 * TAX_RATE) := by
  have h0 : (computeOrderTotals [((599 : ℚ)/100, (1 : ℤ))]).1 = 599/100 := by
    simp [computeOrderTotals]
  have h1 : (computeOrderTotals [((599 : ℚ)/100, (1 : ℤ))]).2.1 = (599 : ℚ)/100 * TAX_RATE := by
    simp [computeOrderTotals]
  refine ⟨h1, ?_⟩
  rw [h1, h0]
  have h2 : (599 : ℚ)/100 * TAX_RATE = 434275/1000000 := by norm_num [TAX_RATE]
  rw [h2, round2_eq_of_bounds (434275/1000000) 43 (by norm_num) (by norm_num)]
  norm_num

/-- C6 witness: the amended claim at a concrete two-item list and its
transposition. -/
theorem C6_totals_reorder_witness :
    computeOrderTotals [((599 : ℚ)/100, (1 : ℤ)), (250/100, 2)]
      = computeOrderTotals [((250 : ℚ)/100, (2 : ℤ)), (599/100, 1)] ∧
    (computeOrderTotals [((599 : ℚ)/100, (1 : ℤ)), (250/100, 2)]).2.2 =
      (computeOrderTotals [((599 : ℚ)/100, (1 : ℤ)), (250/100, 2)]).1 +
        round2 ((computeOrderTotals [((599 : ℚ)/100, (1 : ℤ)), (250/100, 2)]).1 * TAX_RATE) :=
  C6_totals_reorder _ _ (List.Perm.swap _ _ _)
    (by
      intro pq h
      fin_cases h
      · exact ⟨599, by norm_num⟩
      · exact ⟨250, by norm_num⟩)

/-! ## Correlation cache and completed-call handling — `routes/webhook.py` -/

/-- `CACHE_EXPIRY_SECONDS = 3600` (1 hour). -/
def CACHE_EXPIRY_SECONDS : ℚ := 3600

/-- One `_restaurant_cache` entry (`timestamp` is the `time.time()` value at
the write, idealised as a rational number of seconds). -/
structure CacheEntry where
  restaurant_phone : String
  restaurant_id : String
  restaurant_name : String
  timestamp : ℚ
deriving DecidableEq, Repr

/-- The in-process `_restaurant_cache` dict, as an insertion-ordered
association list with unique keys. -/
abbrev Cache := List (String × CacheEntry)

/-- `_restaurant_cache.get(model_id)`. -/
def cacheGet (c : Cache) (k : String) : Option CacheEntry :=
  (c.find? (fun p => p.1 == k)).map (fun p => p.2)

/-- `_restaurant_cache[model_id] = entry` (overwrite in place or append). -/
def cachePut : Cache → String → CacheEntry → Cache
  | [], k, v => [(k, v)]
  | (k', v') :: rest, k, v =>
    if k' == k then (k, v) :: rest else (k', v') :: cachePut rest k v

/-- `del _restaurant_cache[model_id]`. -/
def cacheErase (c : Cache) (k : String) : Cache :=
  c.filter (fun p => p.1 != k)

/-- `clean_expired_cache()`: drop every entry older than the TTL. -/
def clean_expired_cache (c : Cache) (now : ℚ) : Cache :=
  c.filter (fun p => !(decide (now - p.2.timestamp > CACHE_EXPIRY_SECONDS)))

/-- One entry of the payload's `executed_actions` log: the action's `name`
and the `parameters_hard_coded.action_config.url` string (`""` when the
nested keys are absent, matching the chained `.get(..., {})` defaults). -/
structure ActionData where
  name : Option String
  url : String
deriving DecidableEq, Repr

/-- The parts of a completed-call payload that restaurant resolution reads:
`call.to` / `call.to_number`, the action-execution log, and
`lead.phone_number` (the caller's own phone). -/
structure CompletedPayload where
  call_to : Option String
  call_to_number : Option String
  executed_actions : List (String × ActionData)
  lead_phone : Option String
deriving DecidableEq, Repr

/-- Python `a or b` on optional strings (`None` and `""` are falsy). -/
def pyOr (a b : Option String) : Option String :=
  match a with
  | some s => if s ≠ "" then some s else b
  | none => b

/-- Python truthiness of an optional string. -/
def optTruthy : Option String → Bool
  | some s => s ≠ ""
  | none => false

/-- `url.split("phone=")[1].split("&")[0].split(" ")[0]`, guarded by
`"phone=" in url`. -/
def urlPhone (url : String) : Option String :=
  if strContains url.data "phone=".data then
    match dropThroughFirst "phone=".data url.data with
    | some r =>
      some (String.mk (((takeUntilSub "phone=".data r).takeWhile (fun c => c ≠ '&')).takeWhile
        (fun c => c ≠ ' ')))
    | none => none
  else none

/-- The `executed_actions` scan (option 2 of the fallback chain): the first
action named `get_menu` whose URL contains `phone=` yields the extracted
phone; an action whose URL lacks `phone=` is skipped. -/
def actionsPhone : List (String × ActionData) → Option String
  | [] => none
  | (_, a) :: rest =>
    if a.name == some "get_menu" && strContains a.url.data "phone=".data then urlPhone a.url
    else actionsPhone rest

/-- The fallback phone-selection chain of `handle_completed_call`
(lines 281-310): (1) `call.to or call.to_number`, (2) phone embedded in a
dispatched `get_menu` custom-action URL, (3) `lead.phone_number` — each
step runs only while the previous left the phone falsy. -/
def fallbackPhone (payload : CompletedPayload) : Option String :=
  let p1 : Option String :=
    if optTruthy (pyOr payload.call_to payload.call_to_number) then
      pyOr payload.call_to payload.call_to_number
    else none
  let p2 : Option String :=
    if !optTruthy p1 then
      match actionsPhone payload.executed_actions with
      | some p => some p
      | none => p1
    else p1
  if !optTruthy p2 then payload.lead_phone else p2

/-- A `restaurants` row as restaurant resolution uses it. -/
structure Restaurant where
  id : String
  name : String
deriving DecidableEq, Repr

/-- Outcome of the restaurant-resolution phase: either a resolved
restaurant or an `HTTPException`, in both cases with the cache as the
handler leaves it. -/
inductive ResolveOutcome where
  | resolved (restaurant_id restaurant_name : String) (cache : Cache)
  | httpError (status : Nat) (detail : String) (cache : Cache)
deriving DecidableEq, Repr

/-- The restaurant-resolution phase of `handle_completed_call`
(lines 270-372). A cached entry is used when younger than the TTL; a
cached entry older than the TTL is deleted and a 400 error is raised; on a
cache miss, `clean_expired_cache()` runs and the phone fallback chain is
tried, writing a fresh entry back on success. `get_restaurant_by_phone`
(a store query) is the `store` argument. -/
def resolveRestaurant (cache : Cache) (now : ℚ) (model_id : String)
    (payload : CompletedPayload) (store : String → Option Restaurant) : ResolveOutcome :=
  match cacheGet cache model_id with
  | some cached_data =>
    if now - cached_data.timestamp > CACHE_EXPIRY_SECONDS then
      .httpError 400 ("Cache entry expired for model_id " ++ model_id)
        (cacheErase cache model_id)
    else
      .resolved cached_data.restaurant_id cached_data.restaurant_name cache
  | none =>
    let cache1 := clean_expired_cache cache now
    match fallbackPhone payload with
    | some p =>
      if p ≠ "" then
        let normalized := String.mk (format_phone_number p.data)
        match store normalized with
        | some r =>
          .resolved r.id r.name
            (cachePut cache1 model_id
              { restaurant_phone := normalized, restaurant_id := r.id,
                restaurant_name := r.name, timestamp := now })
        | none =>
          .httpError 404 ("Restaurant not found for phone " ++ normalized
            ++ ". Please ensure restaurant is onboarded with this phone number.") cache1
      else
        .httpError 404 ("Restaurant data not found for model_id " ++ model_id
          ++ ". Ensure inbound webhook is sent first or restaurant phone is available.") cache1
    | none =>
      .httpError 404 ("Restaurant data not found for model_id " ++ model_id
        ++ ". Ensure inbound webhook is sent first or restaurant phone is available.") cache1

/-- The order-processing phase of `handle_completed_call` after restaurant
resolution (lines 374-398): validates the parsed order (produced by the
external LLM parser, an input here) and only then persists via
`create_order`; `orders` is the store's order table threaded through. -/
def processParsedOrder (parsed : ParsedOrder) (restaurant_id : String)
    (menu : List MenuItem) (orders : List (VoiceOrderRow × List VoiceItemRow)) :
    List (VoiceOrderRow × List VoiceItemRow) × Except (Nat × String) VoiceOrderRow :=
  if parsed.customer_phone = "" then
    (orders, .error (400, "Customer phone is required"))
  else if parsed.items.isEmpty then
    (orders, .error (400, "Order must have at least one item"))
  else
    let created := create_order parsed restaurant_id menu
    (orders ++ [created], .ok created.1)

/-! ### Theorems on the completed-call path (claims C3 and C10) -/

/-- A cache whose only entry (key `m1`, timestamp 0) is stale at `now = 4000`. -/
def cacheCE : Cache :=
  [("m1", { restaurant_phone := "+19998887777", restaurant_id := "r1",
            restaurant_name := "Old", timestamp := 0 })]

/-- A completed-call payload carrying a resolvable phone directly
(`call.to`). -/
def payloadCE : CompletedPayload :=
  { call_to := some "9175550100", call_to_number := none,
    executed_actions := [], lead_phone := none }

/-- A restaurant directory resolving exactly the payload's phone. -/
def storeCE : String → Option Restaurant :=
  fun p => if p = "+19175550100" then some { id := "r2", name := "Resolved" } else none

/-- C3 counterexample: with an expired cache entry present, the handler
purges it but raises a 400 "Cache entry expired" error — whereas with the
entry absent and the very same payload it runs the fallback chain and
resolves the restaurant. The expired entry is therefore NOT treated
identically to an absent one. -/
theorem C3_counterexample :
    resolveRestaurant cacheCE 4000 "m1" payloadCE storeCE =
      .httpError 400 "Cache entry expired for model_id m1" (cacheErase cacheCE "m1") ∧
    resolveRestaurant [] 4000 "m1" payloadCE storeCE =
      .resolved "r2" "Resolved"
        (cachePut (clean_expired_cache [] 4000) "m1"
          { restaurant_phone := "+19175550100", restaurant_id := "r2",
            restaurant_name := "Resolved", timestamp := 4000 }) := by
  constructor
  · have hget : cacheGet cacheCE "m1" =
        some { restaurant_phone := "+19998887777", restaurant_id := "r1",
               restaurant_name := "Old", timestamp := 0 } := rfl
    simp only [resolveRestaurant, hget]
    rw [if_pos (by norm_num [CACHE_EXPIRY_SECONDS])]
    rfl
  · have hget : cacheGet ([] : Cache) "m1" = none := rfl
    have hfb : fallbackPhone payloadCE = some "9175550100" := rfl
    have hstore : storeCE (String.mk (format_phone_number "9175550100".data)) =
        some { id := "r2", name := "Resolved" } := rfl
    simp only [resolveRestaurant, hget, hfb, hstore]
    rw [if_pos (by decide)]
    rfl

/-- C3 amended: a cache entry older than the 1-hour TTL IS purged as a side
effect of the lookup, but the handler then rejects the event with a 400
"Cache entry expired" error instead of falling back; the phone fallback
chain (payload phone, then custom-action URL phone, then the caller's
phone) runs only when the entry is entirely absent, in which case a
resolvable phone yields the restaurant and a fresh cache entry. -/
theorem C3_expired_vs_missing (cache : Cache) (now : ℚ) (model_id : String)
    (payload : CompletedPayload) (store : String → Option Restaurant) :
    (∀ e, cacheGet cache model_id = some e →
      now - e.timestamp > CACHE_EXPIRY_SECONDS →
      resolveRestaurant cache now model_id payload store =
        .httpError 400 ("Cache entry expired for model_id " ++ model_id)
          (cacheErase cache model_id)) ∧
    (∀ p r, cacheGet cache model_id = none →
      fallbackPhone payload = some p → p ≠ "" →
      store (String.mk (format_phone_number p.data)) = some r →
      resolveRestaurant cache now model_id payload store =
        .resolved r.id r.name
          (cachePut (clean_expired_cache cache now) model_id
            { restaurant_phone := String.mk (format_phone_number p.data),
              restaurant_id := r.id, restaurant_name := r.name,
              timestamp := now })) := by
  constructor
  · intro e he hexp
    simp only [resolveRestaurant, he]
    rw [if_pos hexp]
  · intro p r hnone hfb hp hstore
    simp only [resolveRestaurant, hnone, hfb]
    rw [if_pos hp]
    simp only [hstore]

/-- C3 witness: both conjuncts of the amended claim at concrete inputs
(an entry written at time 100 looked up at 7300, and a fresh miss). -/
theorem C3_expired_vs_missing_witness :
    (resolveRestaurant
        [("m2", { restaurant_phone := "+12223334444", restaurant_id := "r9",
                  restaurant_name := "Stale", timestamp := 100 })]
        7300 "m2" payloadCE storeCE =
      .httpError 400 "Cache entry expired for model_id m2"
        (cacheErase
          [("m2", { restaurant_phone := "+12223334444", restaurant_id := "r9",
                    restaurant_name := "Stale", timestamp := 100 })] "m2")) ∧
    (resolveRestaurant [] 7300 "m2" payloadCE storeCE =
      .resolved "r2" "Resolved"
        (cachePut (clean_expired_cache [] 7300) "m2"
          { restaurant_phone := "+19175550100", restaurant_id := "r2",
            restaurant_name := "Resolved", timestamp := 7300 })) :=
  ⟨(C3_expired_vs_missing _ 7300 "m2" payloadCE storeCE).1
      { restaurant_phone := "+12223334444", restaurant_id := "r9",
        restaurant_name := "Stale", timestamp := 100 }
      rfl (by norm_num [CACHE_EXPIRY_SECONDS]),
    (C3_expired_vs_missing _ 7300 "m2" payloadCE storeCE).2
      "9175550100" { id := "r2", name := "Resolved" }
      rfl rfl (by decide) rfl⟩

/-- C10: when the resolved completed-call event's parsed order has no
customer phone or an empty item list, the handler rejects it with a 400
error and the order table is left exactly as it was — nothing is
persisted. -/
theorem C10_reject_before_persist (parsed : ParsedOrder) (rid : String)
    (menu : List MenuItem) (orders : List (VoiceOrderRow × List VoiceItemRow))
    (h : parsed.customer_phone = "" ∨ parsed.items = []) :
    ∃ d, processParsedOrder parsed rid menu orders = (orders, .error (400, d)) := by
  rcases h with h | h
  · exact ⟨"Customer phone is required", by rw [processParsedOrder, if_pos h]⟩
  · by_cases hp : parsed.customer_phone = ""
    · exact ⟨"Customer phone is required", by rw [processParsedOrder, if_pos hp]⟩
    · refine ⟨"Order must have at least one item", ?_⟩
      rw [processParsedOrder, if_neg hp, if_pos (by rw [h]; rfl)]

/-- C10 witness: a parsed order with a phone but no items is rejected with
a 400 error and persists nothing. -/
theorem C10_reject_before_persist_witness :
    ∃ d, processParsedOrder
        { customer_name := none, customer_phone := "5551234567", total_amount := none,
          estimated_ready_time := none, special_instructions := none, items := [] }
        "r1" [] [] = ([], .error (400, d)) :=
  C10_reject_before_persist
    { customer_name := none, customer_phone := "5551234567", total_amount := none,
      estimated_ready_time := none, special_instructions := none, items := [] }
    "r1" [] [] (Or.inr rfl)

end Backend
